import Mathlib

/-!
Verification of the confidential-attachments media server.

The repository applies a text watermark to images and videos.  Videos are
transcoded by an external ffmpeg subprocess whose stdout is streamed to an
Azure blob sink; the promise wrapping the pipeline settles via a dual-flag
join (`checkCompletion`).  This file gives a shallow embedding of:

* the completion join of `watermarkVideoToAzure` / `watermarkVideoStreamToAzure`
  (both functions contain the identical promise executor) as a small-step
  machine over event traces;
* the ffprobe dimension probe (`getVideoDimensions`) of both the Dockerfile
  revision and the refactored `MediaService` revision, including the
  registered event handlers and the (un)guarded JSON parse;
* the two `processJob` worker revisions as oracle-driven action traces;
* the watermark overlay geometry of `createWatermarkBuffer` (zone grid,
  pattern table, ring placement, painted regions);
* the scratch-file cleanup of the streaming pipelines.
-/

namespace MediaServer

/-! ## Streaming transcode pipeline: the promise executor of
`watermarkVideoToAzure` and `watermarkVideoStreamToAzure` (src/Dockerfile).

Both functions construct `new Promise((resolve, reject) => ...)` with the
same body: flags `ffmpegDone` / `uploadDone`, an exit-code cell, an upload
error cell, a stderr accumulator, and `checkCompletion` which settles the
promise only when both flags are set.  We model the executor as a state
machine driven by the events Node can deliver: stderr `data`, the child
process `close` event (carrying `code : number | null`, modelled as
`Option Int`), settlement of `blockBlobClient.uploadStream` (fulfilled or
rejected), and the child process `error` event (spawn failure). -/

/-- A settled state of the pipeline promise. -/
inductive Settle where
  | resolved : Settle
  | transcodeFailed : Option Int → String → Settle
  | sinkFailed : String → Settle
  | spawnFailed : String → Settle
deriving DecidableEq, Repr

/-- The settlement kind, forgetting diagnostic payloads. -/
inductive SKind where
  | ok | transcode | sink | spawn
deriving DecidableEq, Repr

def skindOf : Settle → SKind
  | .resolved => .ok
  | .transcodeFailed _ _ => .transcode
  | .sinkFailed _ => .sink
  | .spawnFailed _ => .spawn

/-- Mutable state captured by the promise executor closure
(`ffmpegExitCode`, `ffmpegDone`, `uploadDone`, `uploadError`, `stderr`),
plus the settlement state of the promise itself and whether
`ffmpeg.kill()` has been invoked. -/
structure PState where
  ffmpegExitCode : Option Int
  ffmpegDone : Bool
  uploadDone : Bool
  uploadError : Option String
  stderrBuf : String
  killed : Bool
  settled : Option Settle
deriving DecidableEq, Repr

def initP : PState :=
  { ffmpegExitCode := none, ffmpegDone := false, uploadDone := false
    uploadError := none, stderrBuf := "", killed := false, settled := none }

/-- A promise settles at most once: later `resolve` / `reject` calls are
ignored. -/
def settleP (s : PState) (v : Settle) : PState :=
  if s.settled = none then { s with settled := some v } else s

/-- `checkCompletion` from the source: only when BOTH ffmpeg has exited and
the upload has settled is the combined verdict evaluated; a non-zero
(or null) exit code wins over an upload error, which wins over success. -/
def checkCompletion (s : PState) : PState :=
  if s.ffmpegDone && s.uploadDone then
    if s.ffmpegExitCode ≠ some 0 then
      settleP s (.transcodeFailed s.ffmpegExitCode s.stderrBuf)
    else
      match s.uploadError with
      | some e => settleP s (.sinkFailed e)
      | none => settleP s .resolved
  else s

/-- Events delivered to the executor's handlers. -/
inductive PEvent where
  | stderrData : String → PEvent
  | closeEvt : Option Int → PEvent
  | uploadOk : PEvent
  | uploadErr : String → PEvent
  | errorEvt : String → PEvent
deriving DecidableEq, Repr

/-- One handler invocation, exactly mirroring the registered callbacks:
stderr accumulation; `close` records the code, sets the flag and calls
`checkCompletion`; upload fulfilment sets the flag and calls
`checkCompletion`; upload rejection records the error, sets the flag,
kills ffmpeg and calls `checkCompletion`; the child `error` event rejects
directly. -/
def pstep (s : PState) (e : PEvent) : PState :=
  match e with
  | .stderrData d => { s with stderrBuf := s.stderrBuf ++ d }
  | .closeEvt code =>
      checkCompletion { s with ffmpegExitCode := code, ffmpegDone := true }
  | .uploadOk =>
      checkCompletion { s with uploadDone := true }
  | .uploadErr m =>
      checkCompletion
        { s with uploadError := some ("Azure upload failed: " ++ m)
                 uploadDone := true, killed := true }
  | .errorEvt m => settleP s (.spawnFailed ("FFmpeg spawn error: " ++ m))

/-- Run the executor over a trace of delivered events. -/
def prun (es : List PEvent) : PState := es.foldl pstep initP

/-- The settlement of the `blockBlobClient.uploadStream` promise:
`none` models fulfilment, `some m` rejection with message `m`. -/
def uploadEvent : Option String → PEvent
  | none => .uploadOk
  | some m => .uploadErr m

def isStderrData : PEvent → Bool
  | .stderrData _ => true
  | _ => false

def isCloseEvt : PEvent → Bool
  | .closeEvt _ => true
  | _ => false

def isUploadEvt : PEvent → Bool
  | .uploadOk => true
  | .uploadErr _ => true
  | _ => false

def isErrorEvt : PEvent → Bool
  | .errorEvt _ => true
  | _ => false

/-! ## Dimension probe: `getVideoDimensions`.

Two revisions exist.  The Dockerfile revision (src/Dockerfile, and its URL
twin `getVideoDimensionsFromUrl`) registers handlers for ffprobe stdout
`data`, stderr `data` and `close`; the `close` handler rejects on a
non-zero code and otherwise runs `JSON.parse` plus `result.streams[0]`
field access inside `try/catch`, rejecting on a parse throw.  The
refactored `MediaService.getVideoDimensions` (src/unnamed/part_000)
registers only stdout `data` and `close`, and its `JSON.parse` is NOT
wrapped: a parse throw escapes the `close` handler (an uncaught exception)
and the promise is never settled.  Neither revision registers a handler
for the child process `error` event, so a spawn failure delivers no
settlement either.

`JSON.parse(stdout)` followed by the `streams[0]` width/height extraction
is modelled by a parse oracle `String → Except String (Int × Int)`;
`Except.error` models a thrown `SyntaxError` / `TypeError`. -/

/-- Settlements of the probe promise. -/
inductive ProbeSettle where
  | resolved : Int → Int → ProbeSettle
  | rejected : String → ProbeSettle
deriving DecidableEq, Repr

structure ProbeState where
  stdoutBuf : String
  stderrBuf : String
  settled : Option ProbeSettle
  /-- an exception escaped an event handler (uncaught; promise untouched) -/
  raised : Bool
deriving DecidableEq, Repr

def initProbe : ProbeState :=
  { stdoutBuf := "", stderrBuf := "", settled := none, raised := false }

def psettleP (s : ProbeState) (v : ProbeSettle) : ProbeState :=
  if s.settled = none then { s with settled := some v } else s

/-- Events the ffprobe child process can deliver. -/
inductive ProbeEvent where
  | outData : String → ProbeEvent
  | errData : String → ProbeEvent
  | closeEvt : Option Int → ProbeEvent
  | errorEvt : String → ProbeEvent
deriving DecidableEq, Repr

def isProbeClose : ProbeEvent → Bool
  | .closeEvt _ => true
  | _ => false

def isProbeData : ProbeEvent → Bool
  | .outData _ => true
  | .errData _ => true
  | _ => false

/-- Handler dispatch of the Dockerfile `getVideoDimensions`.  The
`errorEvt` case leaves the state unchanged: no handler is registered for
the child `error` event. -/
def probeStepDocker (parse : String → Except String (Int × Int))
    (s : ProbeState) (e : ProbeEvent) : ProbeState :=
  match e with
  | .outData d => { s with stdoutBuf := s.stdoutBuf ++ d }
  | .errData d => { s with stderrBuf := s.stderrBuf ++ d }
  | .errorEvt _ => s
  | .closeEvt code =>
      if code ≠ some 0 then
        psettleP s (.rejected ("FFprobe failed: " ++ s.stderrBuf))
      else
        match parse s.stdoutBuf with
        | .ok (w, h) => psettleP s (.resolved w h)
        | .error m =>
            psettleP s (.rejected ("Failed to parse FFprobe output: " ++ m))

/-- Handler dispatch of `MediaService.getVideoDimensions`
(src/unnamed/part_000): no stderr handler, no `error` handler, and the
parse is not guarded by `try/catch` — a parse throw escapes the handler,
leaving the promise unsettled. -/
def probeStepMedia (parse : String → Except String (Int × Int))
    (s : ProbeState) (e : ProbeEvent) : ProbeState :=
  match e with
  | .outData d => { s with stdoutBuf := s.stdoutBuf ++ d }
  | .errData _ => s
  | .errorEvt _ => s
  | .closeEvt code =>
      if code ≠ some 0 then
        psettleP s (.rejected "FFprobe failed")
      else
        match parse s.stdoutBuf with
        | .ok (w, h) => psettleP s (.resolved w h)
        | .error _ => { s with raised := true }

def probeRunDocker (parse : String → Except String (Int × Int))
    (es : List ProbeEvent) : ProbeState :=
  es.foldl (probeStepDocker parse) initProbe

def probeRunMedia (parse : String → Except String (Int × Int))
    (es : List ProbeEvent) : ProbeState :=
  es.foldl (probeStepMedia parse) initProbe

/-- The stdout text accumulated from a trace of events. -/
def stdoutOf (es : List ProbeEvent) : String :=
  es.foldl (fun a e => match e with | .outData d => a ++ d | _ => a) ""

/-- A parse oracle standing for `JSON.parse` applied to stdout text that is
not valid JSON: it throws. -/
def parseAlwaysFails : String → Except String (Int × Int) :=
  fun _ => .error "SyntaxError: Unexpected token"

/-! ## The two `processJob` worker revisions.

The Dockerfile revision (src/Dockerfile, `processJob`) has branches for
image and video and an `else { throw new Error(...) }` for any other job
type, and after the branch it POSTs the completion callback and throws if
`!callbackResponse.ok`.  The refactored revision
(src/src/lib/utils/logger.ts concatenation, `processJob`) has NO `else`
branch — an unknown type skips to the callback — and does not consult
`response.ok`: it only catches and rethrows network errors of `fetch`.

Storage, media and callback I/O are oracles; the run records the I/O
actions performed in order and the propagated result. -/

inductive JAction where
  | updateProgress : Nat → JAction
  | blobDownload
  | imageProcess
  | blobUpload
  | sasGenerate
  | videoStream
  | callbackPost
deriving DecidableEq, Repr

inductive JErr where
  | stepFailed : JAction → String → JErr
  | unknownJobType : String → JErr
  | callbackFailed : Nat → JErr
  | callbackNetwork : String → JErr
deriving DecidableEq, Repr

structure JOutcome where
  actions : List JAction
  result : Except JErr Unit
deriving Repr

/-- Results of the awaited collaborator calls.  `callback` is the result of
`fetch(responseUrl, ...)`: a network error, or a response with an HTTP
status code. -/
structure JOracle where
  download : Except String Unit
  imageProc : Except String Unit
  upload : Except String Unit
  sas : Except String Unit
  stream : Except String Unit
  callback : Except String Nat
deriving Repr

/-- `Response.ok`: status in the 2xx range. -/
def responseOk (status : Nat) : Bool := 200 ≤ status && status < 300

/-- `processJob` of the Dockerfile worker revision. -/
def processJobDocker (t : String) (o : JOracle) : JOutcome :=
  let a0 : List JAction := [.updateProgress 10]
  if t = "image" then
    match o.download with
    | .error e => ⟨a0 ++ [.blobDownload], .error (.stepFailed .blobDownload e)⟩
    | .ok _ =>
      let a1 := a0 ++ [.blobDownload, .updateProgress 25]
      match o.imageProc with
      | .error e => ⟨a1 ++ [.imageProcess], .error (.stepFailed .imageProcess e)⟩
      | .ok _ =>
        let a2 := a1 ++ [.imageProcess, .updateProgress 50]
        match o.upload with
        | .error e => ⟨a2 ++ [.blobUpload], .error (.stepFailed .blobUpload e)⟩
        | .ok _ =>
          processJobDockerTail (a2 ++ [.blobUpload, .updateProgress 75]) o
  else if t = "video" then
    match o.sas with
    | .error e => ⟨a0 ++ [.sasGenerate], .error (.stepFailed .sasGenerate e)⟩
    | .ok _ =>
      let a1 := a0 ++ [.sasGenerate, .updateProgress 20]
      match o.stream with
      | .error e => ⟨a1 ++ [.videoStream], .error (.stepFailed .videoStream e)⟩
      | .ok _ => processJobDockerTail (a1 ++ [.videoStream, .updateProgress 75]) o
  else
    ⟨a0, .error (.unknownJobType t)⟩
where
  /-- the common tail: POST the callback, throw unless `response.ok`,
  report progress 100. -/
  processJobDockerTail (acts : List JAction) (o : JOracle) : JOutcome :=
    match o.callback with
    | .error e => ⟨acts ++ [.callbackPost], .error (.callbackNetwork e)⟩
    | .ok status =>
        if responseOk status then
          ⟨acts ++ [.callbackPost, .updateProgress 100], .ok ()⟩
        else
          ⟨acts ++ [.callbackPost], .error (.callbackFailed status)⟩

/-- `processJob` of the refactored worker revision
(`src/src/lib/utils/logger.ts` concatenation): no `else` branch after the
image/video dispatch, and the callback response status is logged but never
checked — only a `fetch` network error is rethrown. -/
def processJobRefactored (t : String) (o : JOracle) : JOutcome :=
  let a0 : List JAction := [.updateProgress 10]
  if t = "image" then
    match o.download with
    | .error e => ⟨a0 ++ [.blobDownload], .error (.stepFailed .blobDownload e)⟩
    | .ok _ =>
      let a1 := a0 ++ [.blobDownload, .updateProgress 30]
      match o.imageProc with
      | .error e => ⟨a1 ++ [.imageProcess], .error (.stepFailed .imageProcess e)⟩
      | .ok _ =>
        let a2 := a1 ++ [.imageProcess, .updateProgress 60]
        match o.upload with
        | .error e => ⟨a2 ++ [.blobUpload], .error (.stepFailed .blobUpload e)⟩
        | .ok _ =>
          processJobRefactoredTail (a2 ++ [.blobUpload, .updateProgress 90]) o
  else if t = "video" then
    match o.sas with
    | .error e => ⟨a0 ++ [.sasGenerate], .error (.stepFailed .sasGenerate e)⟩
    | .ok _ =>
      match o.stream with
      | .error e =>
          ⟨a0 ++ [.sasGenerate, .videoStream], .error (.stepFailed .videoStream e)⟩
      | .ok _ =>
          processJobRefactoredTail
            (a0 ++ [.sasGenerate, .videoStream, .updateProgress 90]) o
  else
    processJobRefactoredTail a0 o
where
  /-- the common tail: `try { fetch; log(status) } catch { throw }` —
  the status itself is never inspected. -/
  processJobRefactoredTail (acts : List JAction) (o : JOracle) : JOutcome :=
    match o.callback with
    | .error e => ⟨acts ++ [.callbackPost], .error (.callbackNetwork e)⟩
    | .ok _ => ⟨acts ++ [.callbackPost], .ok ()⟩

/-- An oracle where every collaborator call succeeds and the callback
answers 200. -/
def allOkOracle : JOracle :=
  { download := .ok (), imageProc := .ok (), upload := .ok ()
    sas := .ok (), stream := .ok (), callback := .ok 200 }

/-- An oracle where every collaborator call succeeds but the callback POST
answers HTTP 500. -/
def callback500Oracle : JOracle := { allOkOracle with callback := .ok 500 }

/-- Storage- or process-I/O actions (queue progress reports are not I/O in
the claim's sense). -/
def isIOAction : JAction → Bool
  | .updateProgress _ => false
  | _ => true

/-! ## Scratch-file cleanup of the streaming pipelines.

`watermarkVideoStreamToAzure` (src/Dockerfile) creates a temporary
directory with `mkdtemp`, then inside `try { probe; render overlay;
writeFile(overlayPath); await pipeline } finally {
await Promise.allSettled([unlink(overlayPath), rmdir(tempDir)]) }`.
`MediaService.watermarkVideoStream` (src/unnamed/part_000) has the same
shape with `finally { await unlink(overlayPath).catch(() => {});
await rmdir(tempDir).catch(() => {}); }`.  In both, cleanup is attempted
on every exit path once the temporary directory exists, and a cleanup
error is swallowed (`Promise.allSettled` never rejects; `.catch(() => {})`
absorbs the rejection).

The body legs and the two cleanup calls are oracles; the run starts just
after the successful `mkdtemp` and tracks which scratch resources exist. -/

inductive FsRes where
  | tempDir | overlayFile
deriving DecidableEq, Repr

/-- Awaited results of the probe, the overlay `writeFile`, the ffmpeg +
upload promise, and the two cleanup calls. -/
structure CleanOracle where
  probe : Except String (Int × Int)
  writeOverlay : Except String Unit
  pipeline : Except String Unit
  unlinkOverlay : Except String Unit
  rmdirTemp : Except String Unit

structure CleanRun where
  result : Except String String
  /-- cleanup calls issued by the `finally` block, in order -/
  cleanupCalls : List FsRes
  /-- the overlay raster file still exists at return -/
  overlayFileExists : Bool
  /-- the temporary working directory still exists at return -/
  tempDirExists : Bool

/-- `watermarkVideoStreamToAzure` from just after `mkdtemp` succeeded:
the `try` body resolves the blob URL or propagates the first failing leg
(probe, overlay write, or the ffmpeg+upload promise); the `finally` block
then attempts both removals regardless of the body's outcome, swallowing
their errors (`Promise.allSettled`).  The overlay file exists once its
`writeFile` succeeded; the temporary directory exists throughout. -/
def streamCleanupRun (o : CleanOracle) : CleanRun :=
  let body : Except String String × Bool :=
    match o.probe with
    | .error e => (.error e, false)
    | .ok _ =>
      match o.writeOverlay with
      | .error e => (.error e, false)
      | .ok _ =>
        match o.pipeline with
        | .error e => (.error e, true)
        | .ok _ => (.ok "blockBlobClient.url", true)
  let overlayAfter := match o.unlinkOverlay with
    | .ok _ => false
    | .error _ => body.2
  let tempAfter := match o.rmdirTemp with
    | .ok _ => false
    | .error _ => true
  ⟨body.1, [.overlayFile, .tempDir], overlayAfter, tempAfter⟩

/-- `MediaService.watermarkVideoStream` from just after `mkdtemp`
succeeded.  Its body awaits `Promise.all([uploadStreamFn(stdout),
processPromise])`; the joint settlement is the `pipeline` oracle.  The
`finally` block runs `unlink(overlayPath).catch(() => {})` then
`rmdir(tempDir).catch(() => {})`: both attempted, errors swallowed.  The
function resolves `undefined` on success. -/
def mediaStreamCleanupRun (o : CleanOracle) : CleanRun :=
  let body : Except String String × Bool :=
    match o.probe with
    | .error e => (.error e, false)
    | .ok _ =>
      match o.writeOverlay with
      | .error e => (.error e, false)
      | .ok _ =>
        match o.pipeline with
        | .error e => (.error e, true)
        | .ok _ => (.ok "undefined", true)
  let overlayAfter := match o.unlinkOverlay with
    | .ok _ => false
    | .error _ => body.2
  let tempAfter := match o.rmdirTemp with
    | .ok _ => false
    | .error _ => true
  ⟨body.1, [.overlayFile, .tempDir], overlayAfter, tempAfter⟩

/-- The given oracle with both cleanup calls succeeding. -/
def withCleanupOk (o : CleanOracle) : CleanOracle :=
  { o with unlinkOverlay := .ok (), rmdirTemp := .ok () }

/-! ## Watermark overlay geometry: `createWatermarkBuffer` (src/Dockerfile).

Numeric quantities are rationals; the JavaScript numbers involved are
exact in ℚ (`1.2 = 6/5`, `0.35 = 7/20`, `ringRadius / 3.5 = 2R/7`).
Text metrics come from `ctx.measureText`; they are a parameter
`measure : String → ℚ` of the placement model.  Random draws
(`Math.random()`) are parameters in `[0,1)`. -/

/-- fixed padding from each zone edge -/
def wmPadding : ℚ := 30

/-- `Math.max(16, Math.min(width, height) / 35)` -/
def baseFontSize (w h : ℚ) : ℚ := max 16 (min w h / 35)

/-- tiled-pass line height `baseFontSize * 1.2` -/
def tiledLineHeight (w h : ℚ) : ℚ := baseFontSize w h * (6 / 5)

/-- `Math.max(200, width / 4)` -/
def stepX (w : ℚ) : ℚ := max 200 (w / 4)

/-- `Math.max(100, height / 6)` -/
def stepY (h : ℚ) : ℚ := max 100 (h / 6)

/-- prominent-pass font size `baseFontSize * 1.2` -/
def prominentFontSize (w h : ℚ) : ℚ := baseFontSize w h * (6 / 5)

/-- prominent-pass line height `prominentFontSize * 1.2` -/
def prominentLineHeight (w h : ℚ) : ℚ := prominentFontSize w h * (6 / 5)

/-- `watermark.split("\n")`, char by char: splitting on every line-break
character, keeping empty segments (JS semantics: `"\n".split("\n")` is
`["", ""]`). -/
def splitLinesAux : List Char → List Char → List (List Char)
  | [], acc => [acc.reverse]
  | c :: cs, acc =>
      if c = '\n' then acc.reverse :: splitLinesAux cs []
      else splitLinesAux cs (c :: acc)

/-- `watermark.split("\n")`. -/
def splitLines (s : String) : List String :=
  (splitLinesAux s.data []).map String.mk

/-- `Math.max(...lines.map(l => ctx.measureText(l).width))`; the split
list is never empty, so the JS spread `Math.max` is a fold over a
non-empty list. -/
def maxTextWidth (measure : String → ℚ) : List String → ℚ
  | [] => 0
  | [l] => measure l
  | l :: ls => max (measure l) (maxTextWidth measure ls)

/-- `textHeight = lines.length * prominentLineHeight` -/
def emblemTextHeight (w h : ℚ) (numLines : ℕ) : ℚ :=
  numLines * prominentLineHeight w h

/-- `zoneWidth = (width - textWidth - 2 * padding) / 3` -/
def zoneW (w tw : ℚ) : ℚ := (w - tw - 2 * wmPadding) / 3

/-- `zoneHeight = (height - textHeight - 2 * padding) / 3` -/
def zoneH (h th : ℚ) : ℚ := (h - th - 2 * wmPadding) / 3

/-- `ringRadius = Math.max(40, Math.min(width, height) / 12)` -/
def ringRadius (w h : ℚ) : ℚ := max 40 (min w h / 12)

/-- `ringThickness = ringRadius * 0.35`; inner radius is their difference,
`0.65 * ringRadius`. -/
def ringInnerRadius (w h : ℚ) : ℚ := ringRadius w h - ringRadius w h * (7 / 20)

/-- `ringFontSize = Math.max(10, ringRadius / 3.5)` -/
def ringFontSize (w h : ℚ) : ℚ := max 10 (ringRadius w h * 2 / 7)

/-- `ringLineHeight = ringFontSize * 1.15` -/
def ringLineHeight (w h : ℚ) : ℚ := ringFontSize w h * (23 / 20)

/-- The 9 zone configs, row-major: entry `i` is
`{ zoneX: i % 3, zoneY: i / 3 }`. -/
def zoneXof (i : ℕ) : ℚ := ((i % 3 : ℕ) : ℚ)

def zoneYof (i : ℕ) : ℚ := ((i / 3 : ℕ) : ℚ)

/-- `separatedZonePatterns` from the source: five triples of zone
indices. -/
def separatedZonePatterns : List (List ℕ) :=
  [[0, 4, 8], [2, 4, 6], [0, 5, 7], [1, 3, 8], [2, 3, 7]]

/-- `Math.floor(Math.random() * separatedZonePatterns.length)` for a draw
`u`. -/
def selectedPatternIndex (u : ℚ) : ℤ :=
  ⌊u * (separatedZonePatterns.length : ℚ)⌋

/-- The pattern selected by draw `u`. -/
def selectedPattern (u : ℚ) : List ℕ :=
  separatedZonePatterns.getD (selectedPatternIndex u).toNat []

/-- Ring center x:
`padding + ringRadius + zone.zoneX * zoneWidth
 + Math.random() * Math.max(zoneWidth - ringRadius * 2, 10)`. -/
def ringCenterX (w h tw zx u : ℚ) : ℚ :=
  wmPadding + ringRadius w h + zx * zoneW w tw +
    u * max (zoneW w tw - ringRadius w h * 2) 10

/-- Ring center y, same shape with zoneHeight and the text height. -/
def ringCenterY (w h th zy v : ℚ) : ℚ :=
  wmPadding + ringRadius w h + zy * zoneH h th +
    v * max (zoneH h th - ringRadius w h * 2) 10

/-- Row of a zone index in the 3×3 grid. -/
def gridRow (i : ℕ) : ℕ := i / 3

/-- Column of a zone index in the 3×3 grid. -/
def gridCol (i : ℕ) : ℕ := i % 3

/-- Two grid cells are adjacent when they share an edge (they sit in the
same row with neighbouring columns, or the same column with neighbouring
rows). -/
def gridAdjacent (a b : ℕ) : Prop :=
  (gridRow a = gridRow b ∧ Nat.dist (gridCol a) (gridCol b) = 1) ∨
  (gridCol a = gridCol b ∧ Nat.dist (gridRow a) (gridRow b) = 1)

instance (a b : ℕ) : Decidable (gridAdjacent a b) := by
  unfold gridAdjacent; infer_instance

/-- The emblem bounding box of a ring with center `(cx, cy)` and outer
radius `R` lies inside `[0, w] × [0, h]`. -/
def ringBoxInside (w h cx cy R : ℚ) : Prop :=
  0 ≤ cx - R ∧ cx + R ≤ w ∧ 0 ≤ cy - R ∧ cy + R ≤ h

/-! ## Painted regions of `createWatermarkBuffer`.

The PNG returned by `canvas.toBuffer` has a pixel with non-zero alpha
exactly when some drawing operation inked a point of the
`[0, width] × [0, height]` surface (everything outside the surface is
clipped).  We model the union of inked point sets over ℝ².  Glyph shapes
produced by `strokeText` / `fillText` are not computable from the source;
they are a parameter `GlyphModel` giving, per font size and string, the
inked region around the draw anchor (covering both the stroke and the
fill pass).  Drawing the empty string inks nothing. -/

/-- Points of the drawing surface. -/
abbrev Pt := ℝ × ℝ

/-- Squared Euclidean distance. -/
def dist2 (p q : Pt) : ℝ :=
  (p.1 - q.1) * (p.1 - q.1) + (p.2 - q.2) * (p.2 - q.2)

/-- The visible canvas `[0, w] × [0, h]`. -/
def canvasSet (w h : ℚ) : Set Pt :=
  {p | 0 ≤ p.1 ∧ p.1 ≤ (w : ℝ) ∧ 0 ≤ p.2 ∧ p.2 ≤ (h : ℝ)}

/-- A region translated by `t`. -/
def translateSet (S : Set Pt) (t : Pt) : Set Pt :=
  {p | (p.1 - t.1, p.2 - t.2) ∈ S}

/-- Font size → string → inked region around the draw anchor. -/
def GlyphModel := ℚ → String → Set Pt

/-- Device image of a user-space point under the tiled-pass transform
`translate(w/2, h/2); rotate(-π/4); translate(-w/2, -h/2)`:
`q - c = Rot(-π/4) (p - c)`, with the rotation coefficient `s = cos(π/4)`
characterised by `s² = 1/2`, `s > 0`. -/
def rotated45 (w h : ℚ) (p q : Pt) : Prop :=
  ∃ s : ℝ, 0 < s ∧ s * s = 1 / 2 ∧
    q.1 - (w : ℝ) / 2 =
      ((p.1 - (w : ℝ) / 2) + (p.2 - (h : ℝ) / 2)) * s ∧
    q.2 - (h : ℝ) / 2 =
      (-(p.1 - (w : ℝ) / 2) + (p.2 - (h : ℝ) / 2)) * s

/-- Tile anchors of the tiled pass: `x, y` run from `-diagonal` in steps
`stepX, stepY` while below `diagonal`, where
`diagonal = sqrt(w² + h²)`. -/
def tilePositions (w h : ℚ) : Set Pt :=
  {t | ∃ dg : ℝ, 0 ≤ dg ∧ dg * dg = (w : ℝ) * w + (h : ℝ) * h ∧
    (∃ m : ℕ, t.1 = -dg + (m : ℝ) * ((stepX w : ℚ) : ℝ)) ∧ t.1 < dg ∧
    (∃ n : ℕ, t.2 = -dg + (n : ℝ) * ((stepY h : ℚ) : ℝ)) ∧ t.2 < dg}

/-- Ink of the tiled pass: at every tile anchor `(x, y)` each line `i` is
stroked and filled at user position `(x, y + i * lineHeight)`, and the
whole pass is drawn under the rotation transform. -/
def tiledPaint (w h : ℚ) (lines : List String) (g : GlyphModel) : Set Pt :=
  {q | ∃ t ∈ tilePositions w h, ∃ i : Fin lines.length, ∃ p,
    p ∈ translateSet (g (baseFontSize w h) (lines.get i))
          (t.1, t.2 + (i : ℕ) * ((tiledLineHeight w h : ℚ) : ℝ)) ∧
    rotated45 w h p q}

/-- Ink of the annulus fill: the region between the inner and outer
circle. -/
def ringAnnulus (cx cy rIn rOut : ℚ) : Set Pt :=
  {p | ((rIn : ℚ) : ℝ) * ((rIn : ℚ) : ℝ) ≤ dist2 p ((cx : ℝ), (cy : ℝ)) ∧
    dist2 p ((cx : ℝ), (cy : ℝ)) ≤ ((rOut : ℚ) : ℝ) * ((rOut : ℚ) : ℝ)}

/-- Ink of `ctx.stroke()` on a circle of radius `r` with `lineWidth 2`:
points whose distance to the center is within 1 of `r`. -/
def circleStrokeBand (cx cy r : ℚ) : Set Pt :=
  {p | ∃ d : ℝ, 0 ≤ d ∧ d * d = dist2 p ((cx : ℝ), (cy : ℝ)) ∧
    |d - (r : ℝ)| ≤ 1}

/-- Ink of the text inside a ring: line `j` drawn centered at
`(centerX, startY + j * ringLineHeight)` with
`startY = centerY - totalTextHeight / 2 + ringLineHeight / 2`. -/
def ringTextPaint (w h : ℚ) (lines : List String) (g : GlyphModel)
    (cx cy : ℚ) : Set Pt :=
  {q | ∃ j : Fin lines.length,
    q ∈ translateSet (g (ringFontSize w h) (lines.get j))
      ((cx : ℝ),
        (cy : ℝ) - (lines.length : ℝ) * ((ringLineHeight w h : ℚ) : ℝ) / 2
          + ((ringLineHeight w h : ℚ) : ℝ) / 2
          + (j : ℕ) * ((ringLineHeight w h : ℚ) : ℝ))}

/-- Everything a single ring emblem inks: annulus fill, the stroke of the
two-circle path, and the text lines inside the ring. -/
def ringEmblemPaint (w h tw th : ℚ) (lines : List String) (g : GlyphModel)
    (zi : ℕ) (uv : ℚ × ℚ) : Set Pt :=
  let cx := ringCenterX w h tw (zoneXof zi) uv.1
  let cy := ringCenterY w h th (zoneYof zi) uv.2
  ringAnnulus cx cy (ringInnerRadius w h) (ringRadius w h) ∪
  circleStrokeBand cx cy (ringRadius w h) ∪
  circleStrokeBand cx cy (ringInnerRadius w h) ∪
  ringTextPaint w h lines g cx cy

/-- Everything `createWatermarkBuffer` inks, given the measure oracle, the
pattern draw `upat` and the per-ring jitter draws `jit`. -/
def renderPaint (w h : ℚ) (text : String) (g : GlyphModel)
    (measure : String → ℚ) (upat : ℚ) (jit : ℕ → ℚ × ℚ) : Set Pt :=
  let lines := splitLines text
  let tw := maxTextWidth measure lines
  let th := emblemTextHeight w h lines.length
  let pat := selectedPattern upat
  tiledPaint w h lines g ∪
  {q | ∃ j : Fin pat.length,
    q ∈ ringEmblemPaint w h tw th lines g (pat.get j) (jit j)}

/-- The raster produced by `createWatermarkBuffer` has a pixel with
non-zero alpha: some inked point lies on the visible canvas. -/
def hasVisiblePoint (w h : ℚ) (text : String) (g : GlyphModel)
    (measure : String → ℚ) (upat : ℚ) (jit : ℕ → ℚ × ℚ) : Prop :=
  ∃ p, p ∈ canvasSet w h ∧ p ∈ renderPaint w h text g measure upat jit

/-- Glyph model used at the refuting input: the empty string inks nothing
(it has no glyphs); any other string is allowed to ink the whole plane.
At the refuting input every drawn string is empty, so only the first case
is consulted. -/
def pessimisticGlyph : GlyphModel := fun _ s => if s = "" then ∅ else Set.univ

/-- `measureText` oracle at the refuting input: the only string measured
there is the empty string, whose measured width is 0. -/
def zeroMeasure : String → ℚ := fun _ => 0

/-! ## Lemmas about the pipeline join. -/

/-- Stderr `data` events only accumulate diagnostics: every other field of
the executor state is untouched. -/
theorem stderr_foldl_preserves (l : List PEvent) (s : PState)
    (h : ∀ e ∈ l, isStderrData e = true) :
    (l.foldl pstep s).ffmpegExitCode = s.ffmpegExitCode ∧
    (l.foldl pstep s).ffmpegDone = s.ffmpegDone ∧
    (l.foldl pstep s).uploadDone = s.uploadDone ∧
    (l.foldl pstep s).uploadError = s.uploadError ∧
    (l.foldl pstep s).settled = s.settled := by
  induction l generalizing s with
  | nil => simp
  | cons a t ih =>
    have ha := h a (List.mem_cons_self a t)
    cases a with
    | stderrData d =>
        simpa [pstep] using
          ih { s with stderrBuf := s.stderrBuf ++ d }
            (fun e he => h e (List.mem_cons_of_mem _ he))
    | closeEvt c => simp [isStderrData] at ha
    | uploadOk => simp [isStderrData] at ha
    | uploadErr m => simp [isStderrData] at ha
    | errorEvt m => simp [isStderrData] at ha

/-- A `close` event before the upload has settled records the exit code
and flag but settles nothing. -/
theorem pstep_close_pending (s : PState) (c : Option Int)
    (hu : s.uploadDone = false) :
    pstep s (.closeEvt c) = { s with ffmpegExitCode := c, ffmpegDone := true } := by
  simp [pstep, checkCompletion, hu]

/-- An upload fulfilment before ffmpeg has exited sets the flag but
settles nothing. -/
theorem pstep_uploadOk_pending (s : PState) (hf : s.ffmpegDone = false) :
    pstep s .uploadOk = { s with uploadDone := true } := by
  simp [pstep, checkCompletion, hf]

/-- An upload rejection before ffmpeg has exited records the error and
kills ffmpeg but settles nothing. -/
theorem pstep_uploadErr_pending (s : PState) (m : String)
    (hf : s.ffmpegDone = false) :
    pstep s (.uploadErr m) =
      { s with uploadError := some ("Azure upload failed: " ++ m)
               uploadDone := true, killed := true } := by
  simp [pstep, checkCompletion, hf]

/-- Once ffmpeg has exited, the upload settlement triggers the combined
verdict. -/
theorem pstep_upload_settles (s : PState) (u : Option String)
    (hf : s.ffmpegDone = true) (hs : s.settled = none)
    (hue : s.uploadError = none) :
    (pstep s (uploadEvent u)).settled =
      some (if s.ffmpegExitCode ≠ some 0 then
              Settle.transcodeFailed s.ffmpegExitCode s.stderrBuf
            else match u with
              | some m => Settle.sinkFailed ("Azure upload failed: " ++ m)
              | none => Settle.resolved) := by
  cases u with
  | none =>
      by_cases hc : s.ffmpegExitCode = some 0 <;>
        simp [uploadEvent, pstep, checkCompletion, settleP, hf, hs, hue, hc]
  | some m =>
      by_cases hc : s.ffmpegExitCode = some 0 <;>
        simp [uploadEvent, pstep, checkCompletion, settleP, hf, hs, hue, hc]

/-- Once the upload has settled, the `close` event triggers the combined
verdict. -/
theorem pstep_close_settles (s : PState) (c : Option Int)
    (hu : s.uploadDone = true) (hs : s.settled = none) :
    (pstep s (.closeEvt c)).settled =
      some (if c ≠ some 0 then
              Settle.transcodeFailed c s.stderrBuf
            else match s.uploadError with
              | some e => Settle.sinkFailed e
              | none => Settle.resolved) := by
  by_cases hc : c = some 0 <;>
    cases hue : s.uploadError <;>
      simp [pstep, checkCompletion, settleP, hu, hs, hue, hc]

/-- Without a `close` event (and without a spawn `error`), the executor
never settles: `checkCompletion` requires `ffmpegDone`. -/
theorem no_close_no_settle (l : List PEvent) (s : PState)
    (herr : ∀ e ∈ l, isErrorEvt e = false)
    (hcl : ∀ e ∈ l, isCloseEvt e = false)
    (hf : s.ffmpegDone = false) (hs : s.settled = none) :
    (l.foldl pstep s).ffmpegDone = false ∧ (l.foldl pstep s).settled = none := by
  induction l generalizing s with
  | nil => exact ⟨hf, hs⟩
  | cons a t ih =>
    have herr' : ∀ e ∈ t, isErrorEvt e = false :=
      fun e he => herr e (List.mem_cons_of_mem _ he)
    have hcl' : ∀ e ∈ t, isCloseEvt e = false :=
      fun e he => hcl e (List.mem_cons_of_mem _ he)
    cases a with
    | stderrData d =>
        rw [List.foldl_cons]
        exact ih { s with stderrBuf := s.stderrBuf ++ d } herr' hcl' hf hs
    | closeEvt c =>
        have := hcl _ (List.mem_cons_self _ _); simp [isCloseEvt] at this
    | uploadOk =>
        rw [List.foldl_cons, pstep_uploadOk_pending s hf]
        exact ih _ herr' hcl' hf hs
    | uploadErr m =>
        rw [List.foldl_cons, pstep_uploadErr_pending s m hf]
        exact ih _ herr' hcl' hf hs
    | errorEvt m =>
        have := herr _ (List.mem_cons_self _ _); simp [isErrorEvt] at this

/-- Without an upload settlement (and without a spawn `error`), the
executor never settles: `checkCompletion` requires `uploadDone`. -/
theorem no_upload_no_settle (l : List PEvent) (s : PState)
    (herr : ∀ e ∈ l, isErrorEvt e = false)
    (hup : ∀ e ∈ l, isUploadEvt e = false)
    (hu : s.uploadDone = false) (hs : s.settled = none) :
    (l.foldl pstep s).uploadDone = false ∧ (l.foldl pstep s).settled = none := by
  induction l generalizing s with
  | nil => exact ⟨hu, hs⟩
  | cons a t ih =>
    have herr' : ∀ e ∈ t, isErrorEvt e = false :=
      fun e he => herr e (List.mem_cons_of_mem _ he)
    have hup' : ∀ e ∈ t, isUploadEvt e = false :=
      fun e he => hup e (List.mem_cons_of_mem _ he)
    cases a with
    | stderrData d =>
        rw [List.foldl_cons]
        exact ih { s with stderrBuf := s.stderrBuf ++ d } herr' hup' hu hs
    | closeEvt c =>
        rw [List.foldl_cons, pstep_close_pending s c hu]
        exact ih _ herr' hup' hu hs
    | uploadOk =>
        have := hup _ (List.mem_cons_self _ _); simp [isUploadEvt] at this
    | uploadErr m =>
        have := hup _ (List.mem_cons_self _ _); simp [isUploadEvt] at this
    | errorEvt m =>
        have := herr _ (List.mem_cons_self _ _); simp [isErrorEvt] at this

/-- **C1.** In the promise executor shared by `watermarkVideoToAzure` and
`watermarkVideoStreamToAzure`, for every execution in which the subprocess
was spawned — an interleaving of exactly one `close` event with exit code
`c`, exactly one settlement `u` of the upload promise, and arbitrary
stderr traffic, with no spawn `error` event — the promise resolves
successfully iff `c = 0` and the upload fulfilled; when the subprocess
exits non-zero the settlement is the transcode failure, and when the exit
code is 0 but the upload rejected it is the sink failure — never
success. -/
theorem c1_pipeline_verdict
    (es l1 l2 l3 : List PEvent) (e1 e2 : PEvent) (c : Option Int)
    (u : Option String)
    (hes : es = l1 ++ e1 :: (l2 ++ e2 :: l3))
    (h1 : ∀ e ∈ l1, isStderrData e = true)
    (h2 : ∀ e ∈ l2, isStderrData e = true)
    (h3 : ∀ e ∈ l3, isStderrData e = true)
    (hord : (e1 = .closeEvt c ∧ e2 = uploadEvent u) ∨
            (e1 = uploadEvent u ∧ e2 = .closeEvt c)) :
    ((prun es).settled.map skindOf = some .ok ↔ (c = some 0 ∧ u = none)) ∧
    (c ≠ some 0 → (prun es).settled.map skindOf = some .transcode) ∧
    (∀ m, c = some 0 → u = some m →
      (prun es).settled.map skindOf = some .sink) := by
  subst hes
  have hrun : prun (l1 ++ e1 :: (l2 ++ e2 :: l3)) =
      l3.foldl pstep
        (pstep (l2.foldl pstep (pstep (l1.foldl pstep initP) e1)) e2) := by
    simp [prun, List.foldl_append]
  obtain ⟨p1e, p1f, p1u, p1err, p1s⟩ := stderr_foldl_preserves l1 initP h1
  have hverdict :
      (prun (l1 ++ e1 :: (l2 ++ e2 :: l3))).settled.map skindOf =
        some (if c ≠ some 0 then SKind.transcode
              else match u with
                | some _ => SKind.sink
                | none => SKind.ok) := by
    rcases hord with ⟨he1, he2⟩ | ⟨he1, he2⟩
    · -- ffmpeg closes first, the upload settles second
      subst he1; subst he2
      rw [hrun, pstep_close_pending _ c (p1u.trans rfl)]
      obtain ⟨p2e, p2f, p2u, p2err, p2s⟩ :=
        stderr_foldl_preserves l2
          { l1.foldl pstep initP with ffmpegExitCode := c, ffmpegDone := true } h2
      obtain ⟨_, _, _, _, p3s⟩ :=
        stderr_foldl_preserves l3
          (pstep (l2.foldl pstep
            { l1.foldl pstep initP with ffmpegExitCode := c, ffmpegDone := true })
            (uploadEvent u)) h3
      rw [p3s, pstep_upload_settles _ u (p2f.trans rfl)
            (p2s.trans (p1s.trans rfl)) (p2err.trans (p1err.trans rfl)),
          p2e]
      by_cases hc : c = some 0 <;> cases u <;> simp [hc, skindOf]
    · -- the upload settles first, ffmpeg closes second
      subst he1; subst he2
      cases u with
      | none =>
          rw [hrun]
          simp only [uploadEvent]
          rw [pstep_uploadOk_pending _ (p1f.trans rfl)]
          obtain ⟨p2e, p2f, p2u, p2err, p2s⟩ :=
            stderr_foldl_preserves l2
              { l1.foldl pstep initP with uploadDone := true } h2
          obtain ⟨_, _, _, _, p3s⟩ :=
            stderr_foldl_preserves l3
              (pstep (l2.foldl pstep
                { l1.foldl pstep initP with uploadDone := true })
                (.closeEvt c)) h3
          rw [p3s, pstep_close_settles _ c (p2u.trans rfl)
                (p2s.trans (p1s.trans rfl)),
              p2err.trans (p1err.trans rfl)]
          by_cases hc : c = some 0 <;> simp [hc, skindOf, initP]
      | some m =>
          rw [hrun]
          simp only [uploadEvent]
          rw [pstep_uploadErr_pending _ m (p1f.trans rfl)]
          obtain ⟨p2e, p2f, p2u, p2err, p2s⟩ :=
            stderr_foldl_preserves l2
              { l1.foldl pstep initP with
                  uploadError := some ("Azure upload failed: " ++ m)
                  uploadDone := true, killed := true } h2
          obtain ⟨_, _, _, _, p3s⟩ :=
            stderr_foldl_preserves l3
              (pstep (l2.foldl pstep
                { l1.foldl pstep initP with
                    uploadError := some ("Azure upload failed: " ++ m)
                    uploadDone := true, killed := true })
                (.closeEvt c)) h3
          rw [p3s, pstep_close_settles _ c (p2u.trans rfl)
                (p2s.trans (p1s.trans rfl)),
              p2err.trans rfl]
          by_cases hc : c = some 0 <;> simp [hc, skindOf]
  rw [hverdict]
  refine ⟨?_, ?_, ?_⟩
  · by_cases hc : c = some 0 <;> cases u <;> simp [hc]
  · intro hc; simp [hc]
  · intro m hc hm; subst hm; simp [hc]

/-- Witness for C1: ffmpeg exits with code 0 and then the upload fulfils —
the pipeline promise resolves. -/
theorem c1_pipeline_verdict_witness :
    (prun [.closeEvt (some 0), .uploadOk]).settled.map skindOf =
      some SKind.ok :=
  (c1_pipeline_verdict [.closeEvt (some 0), .uploadOk] [] [] []
      (.closeEvt (some 0)) .uploadOk (some 0) none rfl
      (fun e he => absurd he (List.not_mem_nil e))
      (fun e he => absurd he (List.not_mem_nil e))
      (fun e he => absurd he (List.not_mem_nil e))
      (Or.inl ⟨rfl, rfl⟩)).1.mpr ⟨rfl, rfl⟩

/-- **C2.** The pipeline promise never settles while only one of the two
asynchronous legs has resolved: for every event trace of an execution in
which the subprocess was successfully spawned (no spawn `error` event), a
settled promise implies the trace contains both the subprocess `close`
event and a settlement of the sink upload. -/
theorem c2_join_requires_both (es : List PEvent)
    (herr : ∀ e ∈ es, isErrorEvt e = false)
    (hset : (prun es).settled ≠ none) :
    (∃ e ∈ es, isCloseEvt e = true) ∧ (∃ e ∈ es, isUploadEvt e = true) := by
  constructor
  · by_contra h
    push_neg at h
    exact hset (no_close_no_settle es initP herr
      (fun e he => by simpa using h e he) rfl rfl).2
  · by_contra h
    push_neg at h
    exact hset (no_upload_no_settle es initP herr
      (fun e he => by simpa using h e he) rfl rfl).2

/-- Witness for C2: in the trace where ffmpeg closed and the upload
fulfilled, the settled promise implies both legs are present in the
trace. -/
theorem c2_join_requires_both_witness :
    (∃ e ∈ [PEvent.closeEvt (some 0), PEvent.uploadOk], isCloseEvt e = true) ∧
    (∃ e ∈ [PEvent.closeEvt (some 0), PEvent.uploadOk], isUploadEvt e = true) :=
  c2_join_requires_both [.closeEvt (some 0), .uploadOk]
    (by intro e he; fin_cases he <;> rfl)
    (by decide)

/-- **C3 (amended).** In the Dockerfile worker revision, a job whose type
is neither "image" nor "video" fails with the unknown-job-type error
before any storage or process I/O: the action trace is exactly the
initial progress report — no blob download or upload, no subprocess, no
callback.  (The refactored revision lacks this guard; see the
counterexample.) -/
theorem c3_unknown_type_no_io (t : String) (o : JOracle)
    (h1 : t ≠ "image") (h2 : t ≠ "video") :
    (processJobDocker t o).result = .error (.unknownJobType t) ∧
    (processJobDocker t o).actions = [.updateProgress 10] := by
  constructor <;> simp [processJobDocker, h1, h2]

/-- Witness for C3 (amended) at job type "audio". -/
theorem c3_unknown_type_no_io_witness :
    (processJobDocker "audio" allOkOracle).result =
      .error (.unknownJobType "audio") ∧
    (processJobDocker "audio" allOkOracle).actions = [.updateProgress 10] :=
  c3_unknown_type_no_io "audio" allOkOracle (by decide) (by decide)

/-- **C3 (counterexample).** In the refactored worker revision
(src/src/lib/utils/logger.ts concatenation), a job of type "audio" is NOT
rejected: both branches are skipped, the completion callback is POSTed
(storage-free but still I/O, contradicting "fails before any I/O, no
callback sent"), and the job completes successfully. -/
theorem c3_counterexample :
    (processJobRefactored "audio" allOkOracle).result = .ok () ∧
    JAction.callbackPost ∈ (processJobRefactored "audio" allOkOracle).actions := by
  constructor
  · rfl
  · decide

/-- **C4 (amended).** In the Dockerfile worker revision, whenever the
processing branch succeeded and the completion callback POST returned a
non-2xx HTTP status, `processJob` throws `callbackFailed`, so the job
fails (propagating to the queue's retry mechanism) rather than
completing.  (The refactored revision never consults the status; see the
counterexample.) -/
theorem c4_callback_non2xx_fails (t : String) (o : JOracle) (status : ℕ)
    (hbranch :
      (t = "image" ∧ o.download = .ok () ∧ o.imageProc = .ok () ∧
        o.upload = .ok ()) ∨
      (t = "video" ∧ o.sas = .ok () ∧ o.stream = .ok ()))
    (hcb : o.callback = .ok status)
    (hbad : responseOk status = false) :
    (processJobDocker t o).result = .error (.callbackFailed status) := by
  rcases hbranch with ⟨ht, hd, hi, hu⟩ | ⟨ht, hs, hstr⟩
  · subst ht
    simp [processJobDocker, processJobDocker.processJobDockerTail,
      hd, hi, hu, hcb, hbad]
  · subst ht
    simp [processJobDocker, processJobDocker.processJobDockerTail,
      hs, hstr, hcb, hbad]

/-- Witness for C4 (amended): an image job whose callback answers 500
fails with `callbackFailed 500`. -/
theorem c4_callback_non2xx_fails_witness :
    (processJobDocker "image" callback500Oracle).result =
      .error (.callbackFailed 500) :=
  c4_callback_non2xx_fails "image" callback500Oracle 500
    (Or.inl ⟨rfl, rfl, rfl, rfl⟩) rfl (by decide)

/-- **C4 (counterexample).** In the refactored worker revision, an image
job whose completion callback POST answers HTTP 500 still completes
successfully: the status is logged but never checked, contradicting "a
non-2xx HTTP status causes the job to fail". -/
theorem c4_counterexample :
    (processJobRefactored "image" callback500Oracle).result = .ok () := by
  rfl

/-- **C9.** For both streaming pipelines (`watermarkVideoStreamToAzure`
and `MediaService.watermarkVideoStream`), once the temporary directory
was created, every exit path — success, probe failure, overlay-write
failure, transcode failure or sink failure, i.e. every oracle outcome —
attempts removal of both scratch resources (the overlay raster file and
the temporary directory); when the removal calls succeed, neither
resource remains; and cleanup errors are swallowed: the returned outcome
is identical whether or not the cleanup calls fail. -/
theorem c9_cleanup_every_path (o : CleanOracle) :
    ((streamCleanupRun o).cleanupCalls = [.overlayFile, .tempDir] ∧
     (streamCleanupRun (withCleanupOk o)).overlayFileExists = false ∧
     (streamCleanupRun (withCleanupOk o)).tempDirExists = false ∧
     (streamCleanupRun o).result =
       (streamCleanupRun (withCleanupOk o)).result) ∧
    ((mediaStreamCleanupRun o).cleanupCalls = [.overlayFile, .tempDir] ∧
     (mediaStreamCleanupRun (withCleanupOk o)).overlayFileExists = false ∧
     (mediaStreamCleanupRun (withCleanupOk o)).tempDirExists = false ∧
     (mediaStreamCleanupRun o).result =
       (mediaStreamCleanupRun (withCleanupOk o)).result) := by
  obtain ⟨p, w, pl, u, r⟩ := o
  cases p <;> cases w <;> cases pl <;> cases u <;> cases r <;>
    simp [streamCleanupRun, mediaStreamCleanupRun, withCleanupOk]

/-! ## Lemmas about the dimension probe. -/

theorem stdoutOf_foldl (t : List ProbeEvent) (x : String) :
    t.foldl (fun a e => match e with | ProbeEvent.outData d => a ++ d | _ => a) x
      = x ++ stdoutOf t := by
  induction t generalizing x with
  | nil => simp [stdoutOf]
  | cons a t ih =>
    cases a with
    | outData d =>
        simp only [stdoutOf, List.foldl_cons]
        rw [ih (x ++ d), ih ("" ++ d), String.empty_append, String.append_assoc]
    | errData d =>
        simp only [stdoutOf, List.foldl_cons]
        rw [ih x, ih "", String.empty_append]
    | closeEvt c =>
        simp only [stdoutOf, List.foldl_cons]
        rw [ih x, ih "", String.empty_append]
    | errorEvt m =>
        simp only [stdoutOf, List.foldl_cons]
        rw [ih x, ih "", String.empty_append]

/-- Stdout/stderr `data` events settle nothing in the Dockerfile probe;
stdout chunks accumulate. -/
theorem probe_docker_data (parse : String → Except String (Int × Int))
    (l : List ProbeEvent) (s : ProbeState)
    (h : ∀ e ∈ l, isProbeData e = true) :
    (l.foldl (probeStepDocker parse) s).settled = s.settled ∧
    (l.foldl (probeStepDocker parse) s).stdoutBuf = s.stdoutBuf ++ stdoutOf l := by
  induction l generalizing s with
  | nil => simp [stdoutOf]
  | cons a t ih =>
    have ha := h a (List.mem_cons_self a t)
    have h' : ∀ e ∈ t, isProbeData e = true :=
      fun e he => h e (List.mem_cons_of_mem _ he)
    cases a with
    | outData d =>
        obtain ⟨ihs, ihb⟩ := ih { s with stdoutBuf := s.stdoutBuf ++ d } h'
        refine ⟨by simpa [probeStepDocker] using ihs, ?_⟩
        simp only [List.foldl_cons, probeStepDocker]
        rw [ihb]
        simp only [stdoutOf, List.foldl_cons]
        rw [stdoutOf_foldl t ("" ++ d), String.empty_append, String.append_assoc]
        rfl
    | errData d =>
        obtain ⟨ihs, ihb⟩ := ih { s with stderrBuf := s.stderrBuf ++ d } h'
        refine ⟨by simpa [probeStepDocker] using ihs, ?_⟩
        simp only [List.foldl_cons, probeStepDocker]
        rw [ihb]
        rfl
    | closeEvt c => simp [isProbeData] at ha
    | errorEvt m => simp [isProbeData] at ha

/-- Stdout/stderr `data` events settle nothing in the MediaService probe;
stdout chunks accumulate. -/
theorem probe_media_data (parse : String → Except String (Int × Int))
    (l : List ProbeEvent) (s : ProbeState)
    (h : ∀ e ∈ l, isProbeData e = true) :
    (l.foldl (probeStepMedia parse) s).settled = s.settled ∧
    (l.foldl (probeStepMedia parse) s).stdoutBuf = s.stdoutBuf ++ stdoutOf l := by
  induction l generalizing s with
  | nil => simp [stdoutOf]
  | cons a t ih =>
    have ha := h a (List.mem_cons_self a t)
    have h' : ∀ e ∈ t, isProbeData e = true :=
      fun e he => h e (List.mem_cons_of_mem _ he)
    cases a with
    | outData d =>
        obtain ⟨ihs, ihb⟩ := ih { s with stdoutBuf := s.stdoutBuf ++ d } h'
        refine ⟨by simpa [probeStepMedia] using ihs, ?_⟩
        simp only [List.foldl_cons, probeStepMedia]
        rw [ihb]
        simp only [stdoutOf, List.foldl_cons]
        rw [stdoutOf_foldl t ("" ++ d), String.empty_append, String.append_assoc]
        rfl
    | errData d =>
        obtain ⟨ihs, ihb⟩ := ih s h'
        refine ⟨by simpa [probeStepMedia] using ihs, ?_⟩
        simp only [List.foldl_cons, probeStepMedia]
        rw [ihb]
        rfl
    | closeEvt c => simp [isProbeData] at ha
    | errorEvt m => simp [isProbeData] at ha

/-- No event other than `close` can settle either probe promise. -/
theorem probe_no_close_docker (parse : String → Except String (Int × Int))
    (l : List ProbeEvent) (s : ProbeState)
    (hnc : ∀ e ∈ l, isProbeClose e = false) :
    (l.foldl (probeStepDocker parse) s).settled = s.settled := by
  induction l generalizing s with
  | nil => rfl
  | cons a t ih =>
    have h' : ∀ e ∈ t, isProbeClose e = false :=
      fun e he => hnc e (List.mem_cons_of_mem _ he)
    cases a with
    | closeEvt c =>
        have := hnc _ (List.mem_cons_self _ _); simp [isProbeClose] at this
    | outData d => rw [List.foldl_cons]; exact ih _ h'
    | errData d => rw [List.foldl_cons]; exact ih _ h'
    | errorEvt m => rw [List.foldl_cons]; exact ih _ h'

/-- Same for the MediaService probe. -/
theorem probe_no_close_media (parse : String → Except String (Int × Int))
    (l : List ProbeEvent) (s : ProbeState)
    (hnc : ∀ e ∈ l, isProbeClose e = false) :
    (l.foldl (probeStepMedia parse) s).settled = s.settled := by
  induction l generalizing s with
  | nil => rfl
  | cons a t ih =>
    have h' : ∀ e ∈ t, isProbeClose e = false :=
      fun e he => hnc e (List.mem_cons_of_mem _ he)
    cases a with
    | closeEvt c =>
        have := hnc _ (List.mem_cons_self _ _); simp [isProbeClose] at this
    | outData d => rw [List.foldl_cons]; exact ih _ h'
    | errData d => rw [List.foldl_cons]; exact ih _ h'
    | errorEvt m => rw [List.foldl_cons]; exact ih _ h'

/-- The `close` handler of the Dockerfile probe settles the pending
promise with the verdict determined by the exit code and the parse of the
accumulated stdout. -/
theorem probeStepDocker_close (parse : String → Except String (Int × Int))
    (s : ProbeState) (code : Option Int) (hs : s.settled = none) :
    (probeStepDocker parse s (.closeEvt code)).settled =
      some (if code ≠ some 0 then
              ProbeSettle.rejected ("FFprobe failed: " ++ s.stderrBuf)
            else match parse s.stdoutBuf with
              | .ok (w, h) => ProbeSettle.resolved w h
              | .error m =>
                  ProbeSettle.rejected ("Failed to parse FFprobe output: " ++ m)) := by
  by_cases hc : code = some 0
  · cases hp : parse s.stdoutBuf with
    | ok d => cases d; simp [probeStepDocker, psettleP, hc, hp, hs]
    | error m => simp [probeStepDocker, psettleP, hc, hp, hs]
  · simp [probeStepDocker, psettleP, hc, hs]

/-- The `close` handler of the MediaService probe rejects a pending
promise on a non-zero exit code. -/
theorem probeStepMedia_close_fail (parse : String → Except String (Int × Int))
    (s : ProbeState) (code : Option Int)
    (hs : s.settled = none) (hc : code ≠ some 0) :
    (probeStepMedia parse s (.closeEvt code)).settled =
      some (.rejected "FFprobe failed") := by
  simp [probeStepMedia, psettleP, hs, hc]

/-- **C8 (amended).** For the Dockerfile revision of
`getVideoDimensions`: in every probe execution — stdout/stderr traffic
followed by the `close` event — if ffprobe exited non-zero or the
accumulated stdout is not parseable as the expected structured report,
the promise is rejected, never resolved with dimensions.  For the
refactored `MediaService` revision this holds for the non-zero-exit case;
the unparseable case there does not reject (see the counterexample). -/
theorem c8_probe_failure_rejects (parse : String → Except String (Int × Int))
    (ns : List ProbeEvent) (code : Option Int)
    (hdata : ∀ e ∈ ns, isProbeData e = true)
    (hfail : code ≠ some 0 ∨ ∃ m, parse (stdoutOf ns) = .error m) :
    (∃ msg, (probeRunDocker parse (ns ++ [.closeEvt code])).settled =
        some (.rejected msg)) ∧
    (code ≠ some 0 →
      (probeRunMedia parse (ns ++ [.closeEvt code])).settled =
        some (.rejected "FFprobe failed")) := by
  obtain ⟨hds, hdb⟩ := probe_docker_data parse ns initProbe hdata
  obtain ⟨hms, hmb⟩ := probe_media_data parse ns initProbe hdata
  rw [show initProbe.stdoutBuf ++ stdoutOf ns = stdoutOf ns from
    String.empty_append _] at hdb hmb
  have hds' : (ns.foldl (probeStepDocker parse) initProbe).settled = none :=
    hds.trans rfl
  have hms' : (ns.foldl (probeStepMedia parse) initProbe).settled = none :=
    hms.trans rfl
  constructor
  · unfold probeRunDocker
    rw [List.foldl_append, List.foldl_cons, List.foldl_nil,
        probeStepDocker_close parse _ code hds', hdb]
    by_cases hc : code = some 0
    · rcases hfail with hne | ⟨m, hm⟩
      · exact absurd hc hne
      · exact ⟨"Failed to parse FFprobe output: " ++ m, by rw [hm]; simp [hc]⟩
    · exact ⟨"FFprobe failed: " ++
        (ns.foldl (probeStepDocker parse) initProbe).stderrBuf, by simp [hc]⟩
  · intro hc
    unfold probeRunMedia
    rw [List.foldl_append, List.foldl_cons, List.foldl_nil,
        probeStepMedia_close_fail parse _ code hms' hc]

/-- Witness for C8 (amended): ffprobe exits with code 1 after emitting
nothing — both revisions reject. -/
theorem c8_probe_failure_rejects_witness :
    (∃ msg, (probeRunDocker parseAlwaysFails [.closeEvt (some 1)]).settled =
        some (.rejected msg)) ∧
    (some (1 : Int) ≠ some 0 →
      (probeRunMedia parseAlwaysFails [.closeEvt (some 1)]).settled =
        some (.rejected "FFprobe failed")) :=
  c8_probe_failure_rejects parseAlwaysFails [] (some 1)
    (fun e he => absurd he (List.not_mem_nil e))
    (Or.inl (by decide))

/-- **C8 (counterexample).** In the `MediaService` revision, when ffprobe
exits 0 but its stdout is not parseable (modelled by the throwing parse
oracle), the `JSON.parse` throw escapes the unguarded `close` handler: the
exception is uncaught and the promise never settles — in particular it is
NOT rejected with a probe error, contrary to the claim. -/
theorem c8_counterexample :
    (probeRunMedia parseAlwaysFails
        [.outData "garbage", .closeEvt (some 0)]).settled = none ∧
    (probeRunMedia parseAlwaysFails
        [.outData "garbage", .closeEvt (some 0)]).raised = true :=
  ⟨rfl, rfl⟩

/-- **C10.** Neither `getVideoDimensions` revision registers a handler for
the child process `error` event, and only the `close` handler can call
`resolve` or `reject`: over every event trace containing no `close` event
— in particular the spawn-failure trace, where only `error` fires — the
probe promise never settles (it neither resolves with dimensions nor
rejects). -/
theorem c10_probe_settles_only_via_close
    (parse : String → Except String (Int × Int)) (es : List ProbeEvent)
    (hnc : ∀ e ∈ es, isProbeClose e = false) :
    (probeRunDocker parse es).settled = none ∧
    (probeRunMedia parse es).settled = none :=
  ⟨probe_no_close_docker parse es initProbe hnc,
   probe_no_close_media parse es initProbe hnc⟩

/-- Witness for C10: a spawn failure delivers only the `error` event; the
promise of either revision stays pending forever. -/
theorem c10_probe_settles_only_via_close_witness :
    (probeRunDocker parseAlwaysFails [.errorEvt "spawn ffprobe ENOENT"]).settled
      = none ∧
    (probeRunMedia parseAlwaysFails [.errorEvt "spawn ffprobe ENOENT"]).settled
      = none :=
  c10_probe_settles_only_via_close parseAlwaysFails
    [.errorEvt "spawn ffprobe ENOENT"]
    (by intro e he; fin_cases he <;> rfl)

/-! ## The zone-pattern table. -/

/-- **C6.** The fixed `separatedZonePatterns` table has 5 (≥ 5) entries;
each entry is a triple of distinct grid-cell indices in 0–8 that are
pairwise non-adjacent in the 3×3 grid (no two share an edge); and
`Math.floor(Math.random() * 5)` selects index `k` exactly on the
sub-interval `[k/5, (k+1)/5)` of the uniform random source — every
pattern is chosen with the same probability 1/5. -/
theorem c6_pattern_table :
    separatedZonePatterns.length = 5 ∧
    (∀ p ∈ separatedZonePatterns, p.length = 3 ∧ p.Nodup ∧ ∀ a ∈ p, a < 9) ∧
    (∀ p ∈ separatedZonePatterns, ∀ a ∈ p, ∀ b ∈ p, a ≠ b →
      ¬ gridAdjacent a b) ∧
    (∀ u : ℚ, 0 ≤ u → u < 1 → ∀ k : ℕ, k < 5 →
      (selectedPatternIndex u = k ↔
        (k : ℚ) / 5 ≤ u ∧ u < ((k : ℚ) + 1) / 5)) := by
  refine ⟨rfl, by decide, by decide, ?_⟩
  intro u h0 h1 k hk
  have h5 : (0 : ℚ) < 5 := by norm_num
  unfold selectedPatternIndex
  rw [show ((separatedZonePatterns.length : ℕ) : ℚ) = 5 by
        norm_num [separatedZonePatterns],
      Int.floor_eq_iff, div_le_iff h5, lt_div_iff h5]
  push_cast
  constructor
  · rintro ⟨a, b⟩; exact ⟨by linarith, by linarith⟩
  · rintro ⟨a, b⟩; exact ⟨by linarith, by linarith⟩

/-- Witness for C6: the draw 1/2 selects the middle pattern, index 2. -/
theorem c6_pattern_table_witness : selectedPatternIndex (1 / 2) = (2 : ℕ) :=
  (c6_pattern_table.2.2.2 (1 / 2) (by norm_num) (by norm_num) 2
    (by norm_num)).mpr ⟨by norm_num, by norm_num⟩

/-! ## Ring placement. -/

/-- Affine ring-center bound shared by both axes: with ample zone size
(`2R + 10 ≤ Z`) the jittered center stays at least `R` from the low edge
of the padded area and within `padding + 3 Z` on the high side. -/
theorem ringCenterAffine_bounds (R Z zi t : ℚ) (hR : 40 ≤ R)
    (hzi0 : 0 ≤ zi) (hzi2 : zi ≤ 2) (ht0 : 0 ≤ t) (ht1 : t ≤ 1)
    (hZ : 2 * R + 10 ≤ Z) :
    R ≤ wmPadding + R + zi * Z + t * max (Z - R * 2) 10 ∧
    wmPadding + R + zi * Z + t * max (Z - R * 2) 10 + R ≤ wmPadding + 3 * Z := by
  have hZ0 : (0 : ℚ) ≤ Z := by linarith
  have hM0 : (0 : ℚ) ≤ Z - R * 2 := by linarith
  have hM : max (Z - R * 2) 10 = Z - R * 2 := max_eq_left (by linarith)
  rw [hM]
  unfold wmPadding
  constructor
  · nlinarith [mul_nonneg hzi0 hZ0, mul_nonneg ht0 hM0]
  · nlinarith [mul_le_mul_of_nonneg_right hzi2 hZ0,
      mul_le_mul_of_nonneg_right ht1 hM0]

/-- The emblem box is inside the canvas whenever both zones are ample.
Shared by the C5 and C7 theorems. -/
theorem ringBox_of_ample (w h tw th zx zy u v : ℚ)
    (htw : 0 ≤ tw) (hth : 0 ≤ th)
    (hzx0 : 0 ≤ zx) (hzx2 : zx ≤ 2) (hzy0 : 0 ≤ zy) (hzy2 : zy ≤ 2)
    (hu0 : 0 ≤ u) (hu1 : u ≤ 1) (hv0 : 0 ≤ v) (hv1 : v ≤ 1)
    (hW : 2 * ringRadius w h + 10 ≤ zoneW w tw)
    (hH : 2 * ringRadius w h + 10 ≤ zoneH h th) :
    ringBoxInside w h (ringCenterX w h tw zx u) (ringCenterY w h th zy v)
      (ringRadius w h) := by
  have hR : (40 : ℚ) ≤ ringRadius w h := le_max_left _ _
  obtain ⟨hx1, hx2⟩ := ringCenterAffine_bounds (ringRadius w h) (zoneW w tw)
    zx u hR hzx0 hzx2 hu0 hu1 hW
  obtain ⟨hy1, hy2⟩ := ringCenterAffine_bounds (ringRadius w h) (zoneH h th)
    zy v hR hzy0 hzy2 hv0 hv1 hH
  have hZW : zoneW w tw = (w - tw - 60) / 3 := by unfold zoneW wmPadding; ring
  have hZH : zoneH h th = (h - th - 60) / 3 := by unfold zoneH wmPadding; ring
  have hP : wmPadding = 30 := rfl
  unfold ringBoxInside ringCenterX ringCenterY
  exact ⟨by linarith, by linarith, by linarith, by linarith⟩

/-- **C5 (amended).** Whenever both zone dimensions can accommodate the
ring with its jitter span (`zoneWidth ≥ 2·ringRadius + 10` and
`zoneHeight ≥ 2·ringRadius + 10`), every ring center produced by the
prominent-emblem pass — any zone of the 3×3 grid, any jitter draws in
`[0,1]` — keeps its emblem bounding box inside `[0,width]×[0,height]`.
For smaller canvases the box escapes (see the counterexample). -/
theorem c5_ring_box_inside (w h tw th zx zy u v : ℚ)
    (htw : 0 ≤ tw) (hth : 0 ≤ th)
    (hzx0 : 0 ≤ zx) (hzx2 : zx ≤ 2) (hzy0 : 0 ≤ zy) (hzy2 : zy ≤ 2)
    (hu0 : 0 ≤ u) (hu1 : u ≤ 1) (hv0 : 0 ≤ v) (hv1 : v ≤ 1)
    (hW : 2 * ringRadius w h + 10 ≤ zoneW w tw)
    (hH : 2 * ringRadius w h + 10 ≤ zoneH h th) :
    ringBoxInside w h (ringCenterX w h tw zx u) (ringCenterY w h th zy v)
      (ringRadius w h) :=
  ringBox_of_ample w h tw th zx zy u v htw hth hzx0 hzx2 hzy0 hzy2
    hu0 hu1 hv0 hv1 hW hH

/-- Witness for C5 (amended): a 1000×1000 canvas with measured text width
and height 0, first zone, zero jitter. -/
theorem c5_ring_box_inside_witness :
    ringBoxInside 1000 1000 (ringCenterX 1000 1000 0 0 0)
      (ringCenterY 1000 1000 0 0 0) (ringRadius 1000 1000) :=
  c5_ring_box_inside 1000 1000 0 0 0 0 0 0 le_rfl le_rfl le_rfl (by norm_num)
    le_rfl (by norm_num) le_rfl zero_le_one le_rfl zero_le_one
    (by norm_num [ringRadius, zoneW, wmPadding, min_def, max_def])
    (by norm_num [ringRadius, zoneH, wmPadding, min_def, max_def])

/-- **C5 (counterexample).** At width = height = 100 — with any measured
text width, here 0, since the first zone's center does not depend on it at
zero jitter — the prominent-emblem pass of the first selected pattern
places its first ring at center x = padding + ringRadius = 70 with outer
radius 40: the emblem bounding box reaches x = 110 > 100, outside
`[0, width]`. -/
theorem c5_counterexample :
    ¬ ringBoxInside 100 100
        (ringCenterX 100 100 0 (zoneXof ((selectedPattern 0).getD 0 0)) 0)
        (ringCenterY 100 100 0 (zoneYof ((selectedPattern 0).getD 0 0)) 0)
        (ringRadius 100 100) := by
  intro hbox
  have h2 := hbox.2.1
  rw [show zoneXof ((selectedPattern 0).getD 0 0) = 0 from by
        norm_num [selectedPattern, selectedPatternIndex,
          separatedZonePatterns, zoneXof],
      show ringRadius 100 100 = 40 from by
        norm_num [ringRadius, min_def, max_def]] at h2
  rw [ringCenterX] at h2
  norm_num [wmPadding, ringRadius, min_def, max_def] at h2

/-! ## Painted-region facts. -/

/-- When the ring radius is 40 and every ring text line inks nothing,
everything a ring emblem paints lies within squared distance `41² = 1681`
of its center (the outer stroke band reaches `R + lineWidth/2 = 41`). -/
theorem ringEmblemPaint_dist_bound (w h tw th : ℚ) (lines : List String)
    (g : GlyphModel) (zi : ℕ) (uv : ℚ × ℚ) (p : Pt)
    (hglyph : ∀ l ∈ lines, g (ringFontSize w h) l = ∅)
    (hR : ringRadius w h = 40)
    (hp : p ∈ ringEmblemPaint w h tw th lines g zi uv) :
    dist2 p (((ringCenterX w h tw (zoneXof zi) uv.1 : ℚ) : ℝ),
             ((ringCenterY w h th (zoneYof zi) uv.2 : ℚ) : ℝ)) ≤ 1681 := by
  have hRin : ringInnerRadius w h = 26 := by
    rw [ringInnerRadius, hR]; norm_num
  simp only [ringEmblemPaint, ringAnnulus, circleStrokeBand, ringTextPaint,
    Set.mem_union, Set.mem_setOf_eq] at hp
  rcases hp with ((hann | hs) | hs) | ht
  · obtain ⟨-, hd⟩ := hann
    rw [hR] at hd
    push_cast at hd
    linarith
  · obtain ⟨d, hd0, hdd, hdr⟩ := hs
    rw [hR] at hdr
    rw [abs_le] at hdr
    push_cast at hdr
    rw [← hdd]
    nlinarith
  · obtain ⟨d, hd0, hdd, hdr⟩ := hs
    rw [hRin] at hdr
    rw [abs_le] at hdr
    push_cast at hdr
    rw [← hdd]
    nlinarith
  · obtain ⟨j, hj⟩ := ht
    rw [hglyph _ (List.get_mem lines j.1 j.2)] at hj
    simp [translateSet] at hj

/-- **C7 (counterexample).** At width = height = 1 with watermark text
`"\n"` — a non-empty string both of whose lines are empty — pattern draw
1/5 (the anti-diagonal pattern) and zero jitter, `createWatermarkBuffer`
inks no point of the canvas: the tiled pass and the ring texts draw only
empty strings, and all three ring emblems lie entirely outside
`[0,1]×[0,1]`.  The returned raster has no pixel of non-zero alpha,
contrary to the claim. -/
theorem c7_counterexample :
    ¬ hasVisiblePoint 1 1 "\n" pessimisticGlyph zeroMeasure (1 / 5)
        (fun _ => (0, 0)) := by
  rintro ⟨p, hc, hpaint⟩
  simp only [canvasSet, Set.mem_setOf_eq] at hc
  obtain ⟨hx0, hx1, hy0, hy1⟩ := hc
  norm_num at hx1 hy1
  have hlines : splitLines "\n" = ["", ""] := rfl
  simp only [renderPaint, hlines, Set.mem_union, Set.mem_setOf_eq] at hpaint
  have htw0 : maxTextWidth zeroMeasure ["", ""] = 0 := rfl
  rcases hpaint with htiled | hring
  · simp only [tiledPaint, Set.mem_setOf_eq] at htiled
    obtain ⟨t, ht, i, p', hp', hrot⟩ := htiled
    have hi : (["", ""] : List String).get i = "" := by fin_cases i <;> rfl
    rw [hi] at hp'
    simp [translateSet, pessimisticGlyph] at hp'
  · obtain ⟨j, hj⟩ := hring
    have hpat : selectedPattern (1 / 5) = [2, 4, 6] := by
      norm_num [selectedPattern, selectedPatternIndex, separatedZonePatterns]
    have hR : ringRadius 1 1 = 40 := by
      norm_num [ringRadius, min_def, max_def]
    have hglyph : ∀ l ∈ (["", ""] : List String),
        pessimisticGlyph (ringFontSize 1 1) l = ∅ := by
      intro l hl
      have : l = "" := by
        rcases List.mem_cons.mp hl with h | h
        · exact h
        · simpa using h
      rw [this]; rfl
    have hdist := ringEmblemPaint_dist_bound 1 1
      (maxTextWidth zeroMeasure ["", ""])
      (emblemTextHeight 1 1 (["", ""] : List String).length)
      ["", ""] pessimisticGlyph ((selectedPattern (1 / 5)).get j) (0, 0) p
      hglyph hR hj
    have hzi : (selectedPattern (1 / 5)).get j ∈ ([2, 4, 6] : List ℕ) := by
      rw [← hpat]; exact List.get_mem _ j.1 j.2
    have hth : emblemTextHeight 1 1 (["", ""] : List String).length =
        1152 / 25 := by
      norm_num [emblemTextHeight, prominentLineHeight, prominentFontSize,
        baseFontSize, min_def, max_def]
    rw [htw0, hth] at hdist
    simp only [List.mem_cons, List.not_mem_nil, or_false] at hzi
    rcases hzi with h2 | h4 | h6
    · -- zone 2 = (col 2, row 0): center (92/3, 70)
      rw [h2] at hdist
      rw [show ringCenterX 1 1 0 (zoneXof 2) (0, 0).1 = 92 / 3 by
            norm_num [ringCenterX, zoneXof, zoneW, wmPadding, ringRadius,
              min_def, max_def],
          show ringCenterY 1 1 (1152 / 25) (zoneYof 2) (0, 0).2 = 70 by
            norm_num [ringCenterY, zoneYof, zoneH, wmPadding, ringRadius,
              min_def, max_def]] at hdist
      simp only [dist2] at hdist
      push_cast at hdist
      have h69 : (69 : ℝ) ≤ 70 - p.2 := by linarith
      nlinarith [mul_le_mul h69 h69 (by norm_num) (by linarith),
        mul_self_nonneg (p.1 - 92 / 3)]
    · -- zone 4 = (col 1, row 1): center (151/3, 2623/75)
      rw [h4] at hdist
      rw [show ringCenterX 1 1 0 (zoneXof 4) (0, 0).1 = 151 / 3 by
            norm_num [ringCenterX, zoneXof, zoneW, wmPadding, ringRadius,
              min_def, max_def],
          show ringCenterY 1 1 (1152 / 25) (zoneYof 4) (0, 0).2 = 2623 / 75 by
            norm_num [ringCenterY, zoneYof, zoneH, wmPadding, ringRadius,
              min_def, max_def]] at hdist
      simp only [dist2] at hdist
      push_cast at hdist
      have h49 : (148 / 3 : ℝ) ≤ 151 / 3 - p.1 := by linarith
      nlinarith [mul_le_mul h49 h49 (by norm_num) (by linarith),
        mul_self_nonneg (p.2 - 2623 / 75)]
    · -- zone 6 = (col 0, row 2): center (70, -4/75)
      rw [h6] at hdist
      rw [show ringCenterX 1 1 0 (zoneXof 6) (0, 0).1 = 70 by
            norm_num [ringCenterX, zoneXof, zoneW, wmPadding, ringRadius,
              min_def, max_def],
          show ringCenterY 1 1 (1152 / 25) (zoneYof 6) (0, 0).2 = -4 / 75 by
            norm_num [ringCenterY, zoneYof, zoneH, wmPadding, ringRadius,
              min_def, max_def]] at hdist
      simp only [dist2] at hdist
      push_cast at hdist
      have h69 : (69 : ℝ) ≤ 70 - p.1 := by linarith
      nlinarith [mul_le_mul h69 h69 (by norm_num) (by linarith),
        mul_self_nonneg (p.2 + 4 / 75)]

set_option maxHeartbeats 1000000 in
/-- **C7 (amended).** `createWatermarkBuffer` always allocates a canvas of
exactly the requested width × height (definitional: `createCanvas(width,
height)`); and whenever both zone dimensions can accommodate the ring
(`zoneWidth, zoneHeight ≥ 2·ringRadius + 10`, true for large canvases),
the annulus fill of the first selected ring emblem inks a canvas point,
so the raster has a pixel of non-zero alpha for every pattern draw and
jitter.  Without the size hypothesis the overlay can be fully transparent
(see the counterexample). -/
theorem c7_visible_when_ample (w h : ℚ) (text : String) (g : GlyphModel)
    (measure : String → ℚ) (upat : ℚ) (jit : ℕ → ℚ × ℚ)
    (hup0 : 0 ≤ upat) (hup1 : upat < 1)
    (hj0 : 0 ≤ (jit 0).1) (hj1 : (jit 0).1 ≤ 1)
    (hj2 : 0 ≤ (jit 0).2) (hj3 : (jit 0).2 ≤ 1)
    (htw : 0 ≤ maxTextWidth measure (splitLines text))
    (hW : 2 * ringRadius w h + 10 ≤
      zoneW w (maxTextWidth measure (splitLines text)))
    (hH : 2 * ringRadius w h + 10 ≤
      zoneH h (emblemTextHeight w h (splitLines text).length)) :
    hasVisiblePoint w h text g measure upat jit := by
  simp only [hasVisiblePoint, renderPaint, Set.mem_union, Set.mem_setOf_eq]
  set tw := maxTextWidth measure (splitLines text) with htwdef
  set th := emblemTextHeight w h (splitLines text).length with hthdef
  have hbf : (16 : ℚ) ≤ baseFontSize w h := le_max_left _ _
  have hth0 : 0 ≤ th := by
    rw [hthdef]
    unfold emblemTextHeight prominentLineHeight prominentFontSize
    have h0 : (0 : ℚ) ≤ baseFontSize w h := by linarith
    positivity
  have hlen5 : ((separatedZonePatterns.length : ℕ) : ℚ) = 5 := by
    norm_num [separatedZonePatterns]
  have hflo0 : 0 ≤ selectedPatternIndex upat := by
    rw [selectedPatternIndex, hlen5]
    exact Int.le_floor.mpr (by push_cast; nlinarith)
  have hflo5 : selectedPatternIndex upat < 5 := by
    rw [selectedPatternIndex, hlen5]
    exact Int.floor_lt.mpr (by push_cast; nlinarith)
  have hk5 : (selectedPatternIndex upat).toNat < 5 := by omega
  have hpatlen : (selectedPattern upat).length = 3 := by
    have hall : ∀ k : ℕ, k < 5 →
        (separatedZonePatterns.getD k []).length = 3 := by decide
    exact hall _ hk5
  have h03 : 0 < (selectedPattern upat).length := by rw [hpatlen]; norm_num
  set zi := (selectedPattern upat).get ⟨0, h03⟩ with hzidef
  have hzi9 : zi < 9 := by
    have hall : ∀ k : ℕ, k < 5 →
        ∀ a ∈ separatedZonePatterns.getD k [], a < 9 := by decide
    exact hall _ hk5 _ (List.get_mem _ 0 h03)
  have hzx0 : (0 : ℚ) ≤ zoneXof zi := Nat.cast_nonneg _
  have hzx2 : zoneXof zi ≤ 2 := by
    unfold zoneXof
    exact_mod_cast Nat.le_of_lt_succ (Nat.mod_lt _ (by norm_num))
  have hzy0 : (0 : ℚ) ≤ zoneYof zi := Nat.cast_nonneg _
  have hzy2 : zoneYof zi ≤ 2 := by
    unfold zoneYof
    have hd : zi / 3 ≤ 2 := by omega
    exact_mod_cast hd
  obtain ⟨hb1, hb2, hb3, hb4⟩ := ringBox_of_ample w h tw th
    (zoneXof zi) (zoneYof zi) (jit 0).1 (jit 0).2 htw hth0
    hzx0 hzx2 hzy0 hzy2 hj0 hj1 hj2 hj3 hW hH
  have hR40 : (40 : ℚ) ≤ ringRadius w h := le_max_left _ _
  set cx := ringCenterX w h tw (zoneXof zi) (jit 0).1 with hcxdef
  set cy := ringCenterY w h th (zoneYof zi) (jit 0).2 with hcydef
  refine ⟨(((cx + ringRadius w h * (33 / 40) : ℚ) : ℝ), ((cy : ℚ) : ℝ)),
    ?_, Or.inr ⟨⟨0, h03⟩, ?_⟩⟩
  · simp only [canvasSet, Set.mem_setOf_eq]
    refine ⟨?_, ?_, ?_, ?_⟩
    · exact_mod_cast (by nlinarith :
        (0 : ℚ) ≤ cx + ringRadius w h * (33 / 40))
    · exact_mod_cast (by nlinarith :
        cx + ringRadius w h * (33 / 40) ≤ w)
    · exact_mod_cast (by nlinarith : (0 : ℚ) ≤ cy)
    · exact_mod_cast (by nlinarith : cy ≤ h)
  · simp only [ringEmblemPaint, Set.mem_union]
    rw [← hcxdef, ← hcydef]
    refine Or.inl (Or.inl (Or.inl ?_))
    simp only [ringAnnulus, Set.mem_setOf_eq, dist2]
    have e1 : ((cx + ringRadius w h * (33 / 40) : ℚ) : ℝ) - ((cx : ℚ) : ℝ) =
        ((ringRadius w h * (33 / 40) : ℚ) : ℝ) := by push_cast; ring
    have e2 : ((cy : ℚ) : ℝ) - ((cy : ℚ) : ℝ) = 0 := sub_self _
    rw [e1, e2, mul_zero, add_zero]
    constructor
    · exact_mod_cast (by unfold ringInnerRadius; nlinarith :
        ringInnerRadius w h * ringInnerRadius w h ≤
          ringRadius w h * (33 / 40) * (ringRadius w h * (33 / 40)))
    · exact_mod_cast (by nlinarith :
        ringRadius w h * (33 / 40) * (ringRadius w h * (33 / 40)) ≤
          ringRadius w h * ringRadius w h)

/-- Witness for C7 (amended): a 1000×1000 canvas, single-line text of
measured width 0, first pattern, zero jitter — the overlay has a visible
point. -/
theorem c7_visible_when_ample_witness :
    hasVisiblePoint 1000 1000 "SAMPLE" pessimisticGlyph zeroMeasure 0
      (fun _ => (0, 0)) := by
  have h0 : maxTextWidth zeroMeasure (splitLines "SAMPLE") = 0 := rfl
  have hl : (splitLines "SAMPLE").length = 1 := rfl
  apply c7_visible_when_ample 1000 1000 "SAMPLE" pessimisticGlyph zeroMeasure 0
    (fun _ => (0, 0)) le_rfl (by norm_num) le_rfl zero_le_one le_rfl
    zero_le_one
  · rw [h0]
  · rw [h0]
    norm_num [ringRadius, zoneW, wmPadding, min_def, max_def]
  · rw [hl]
    norm_num [emblemTextHeight, prominentLineHeight, prominentFontSize,
      baseFontSize, ringRadius, zoneH, wmPadding, min_def, max_def]

end MediaServer
